import Mathlib

/-!
Verification development for the Ollama benchmark tool (`benchmark.py`).

The Python source is shallowly embedded: pydantic models become Lean
structures, Python `int` fields become `Int` (pydantic `int` is unbounded and
signed, with no non-negativity constraint), Python float division becomes
exact division on `ℚ` guarded by an explicit `zeroDivisionError` wherever the
Python runtime would raise `ZeroDivisionError` (in Python, `x / 0.0` raises;
it does not produce infinity), functions that print-and-return-`None` on the
error path become `Option`/`Except`-valued functions, and the nondeterministic
inputs (`datetime.now()`, the `ollama` backend) become explicit parameters.
-/

namespace Benchmark

/-- `class Message(BaseModel)`: a single message in the chat interaction. -/
structure Message where
  role : String
  content : String
deriving Repr, DecidableEq

/-- `class OllamaResponse(BaseModel)`: structured response from the Ollama
API, holding performance metrics and message content.  Field types follow the
pydantic declaration: plain `int` fields (signed, unconstrained) and an
optional `created_at` timestamp, modelled as an abstract `Option Int`. -/
structure OllamaResponse where
  model : String
  created_at : Option Int := none
  message : Message
  done : Bool
  total_duration : Int
  load_duration : Int := 0
  prompt_eval_count : Int := 0
  prompt_eval_duration : Int
  eval_count : Int
  eval_duration : Int
deriving Repr, DecidableEq

/-- The raw response object handed back by `ollama.chat` (batch mode) or by
each chunk of the stream: the attributes `from_chat_response` reads off it. -/
structure RawChatResponse where
  model : String
  message : Message
  done : Bool
  total_duration : Int
  load_duration : Int
  prompt_eval_count : Int
  prompt_eval_duration : Int
  eval_count : Int
  eval_duration : Int
deriving Repr, DecidableEq

/-- `OllamaResponse.from_chat_response`: converts an Ollama API response into
an `OllamaResponse` instance, copying each field verbatim.  (`created_at` is
not passed, so it keeps its declared default `None`.) -/
def OllamaResponse.from_chat_response (response : RawChatResponse) : OllamaResponse :=
  { model := response.model
    message := { role := response.message.role, content := response.message.content }
    done := response.done
    total_duration := response.total_duration
    load_duration := response.load_duration
    prompt_eval_count := response.prompt_eval_count
    prompt_eval_duration := response.prompt_eval_duration
    eval_count := response.eval_count
    eval_duration := response.eval_duration }

/-- `nanosec_to_sec`: converts nanoseconds to seconds (`nanosec / 1_000_000_000`,
Python float division embedded as exact division on `ℚ`). -/
def nanosec_to_sec (nanosec : Int) : ℚ :=
  (nanosec : ℚ) / 1000000000

/-- Errors the statistics code can raise at runtime.  `zeroDivisionError` is
what Python raises on division by `0.0`; `undefinedRate` is the explicit error
the spec asks for, which the source never produces. -/
inductive StatsError where
  | zeroDivisionError
  | undefinedRate
deriving Repr, DecidableEq

/-- The values `inference_stats` computes and prints for one record. -/
structure InferenceStats where
  model : String
  prompt_ts : ℚ
  response_ts : ℚ
  total_ts : ℚ
  input_tokens : Int
  generated_tokens : Int
  load_time_s : ℚ
  processing_time_s : ℚ
  generation_time_s : ℚ
  total_time_s : ℚ
deriving Repr, DecidableEq

/-- `inference_stats`: calculates (and prints) detailed inference statistics
for a model response.  The Python body divides without any zero guard, in the
order `prompt_ts`, `response_ts`, `total_ts`; each division by a zero divisor
raises `ZeroDivisionError` at that point, embedded here as `Except.error`
checks in the same evaluation order. -/
def inference_stats (model_response : OllamaResponse) : Except StatsError InferenceStats :=
  if nanosec_to_sec model_response.prompt_eval_duration = 0 then
    Except.error StatsError.zeroDivisionError
  else if nanosec_to_sec model_response.eval_duration = 0 then
    Except.error StatsError.zeroDivisionError
  else if nanosec_to_sec (model_response.prompt_eval_duration + model_response.eval_duration) = 0 then
    Except.error StatsError.zeroDivisionError
  else
    Except.ok
      { model := model_response.model
        prompt_ts := (model_response.prompt_eval_count : ℚ) /
          nanosec_to_sec model_response.prompt_eval_duration
        response_ts := (model_response.eval_count : ℚ) /
          nanosec_to_sec model_response.eval_duration
        total_ts := ((model_response.prompt_eval_count : ℚ) + (model_response.eval_count : ℚ)) /
          nanosec_to_sec (model_response.prompt_eval_duration + model_response.eval_duration)
        input_tokens := model_response.prompt_eval_count
        generated_tokens := model_response.eval_count
        load_time_s := nanosec_to_sec model_response.load_duration
        processing_time_s := nanosec_to_sec model_response.prompt_eval_duration
        generation_time_s := nanosec_to_sec model_response.eval_duration
        total_time_s := nanosec_to_sec model_response.total_duration }

/-- The failure cause of a single `ollama` call (network failure, model not
found, timeout, a pydantic validation error, ...): everything the `except`
clause of `run_benchmark` swallows. -/
structure RunError where
  cause : String
deriving Repr, DecidableEq

/-- The `ollama` backend as `run_benchmark` sees it: `chat` with
`stream=True` yields a finite sequence of chunks, `chat` without streaming a
single response object; either call can raise. -/
structure Backend where
  chat_stream : String → List Message → Except RunError (List RawChatResponse)
  chat : String → List Message → Except RunError RawChatResponse

/-- `run_benchmark`: executes a benchmark run for a specific model and
prompt.  Builds a single-turn user message, calls the backend (streaming when
`verbose`, keeping only the last chunk; batch otherwise), returns `None` when
no response arrived or any step raised, and otherwise normalizes the retained
response with `from_chat_response`.  Printing of streamed chunks is a side
effect with no bearing on the returned value and is not modelled. -/
def run_benchmark (backend : Backend) (model_name : String) (prompt : String)
    (verbose : Bool) : Option OllamaResponse :=
  let messages : List Message := [{ role := "user", content := prompt }]
  if verbose then
    match backend.chat_stream model_name messages with
    | Except.error _ => none
    | Except.ok chunks =>
        match chunks.getLast? with
        | none => none
        | some last_element => some (OllamaResponse.from_chat_response last_element)
  else
    match backend.chat model_name messages with
    | Except.error _ => none
    | Except.ok last_element => some (OllamaResponse.from_chat_response last_element)

/-- `average_stats`: aggregates multiple benchmark runs.  On an empty list the
Python function prints "No stats to average" and returns `None`; otherwise it
builds a synthetic `OllamaResponse` whose duration and count fields are sums
across the runs (`datetime.now()` is passed in as `now`). -/
def average_stats (now : Int) (responses : List OllamaResponse) : Option OllamaResponse :=
  match responses with
  | [] => none
  | first :: rest =>
      some
        { model := first.model
          created_at := some now
          message :=
            { role := "system"
              content := "Average stats across " ++
                toString (first :: rest).length ++ " runs" }
          done := true
          total_duration := ((first :: rest).map (fun r => r.total_duration)).sum
          load_duration := ((first :: rest).map (fun r => r.load_duration)).sum
          prompt_eval_count := ((first :: rest).map (fun r => r.prompt_eval_count)).sum
          prompt_eval_duration := ((first :: rest).map (fun r => r.prompt_eval_duration)).sum
          eval_count := ((first :: rest).map (fun r => r.eval_count)).sum
          eval_duration := ((first :: rest).map (fun r => r.eval_duration)).sum }

/-- `get_benchmark_models`: resolves the requested model list against the
backend's available models (`ollama.list()` is passed in as
`available_models`).  Returns the resolved list together with the optional
warning: the set of requested models that are not available (Python's
`set(test_models) - set(available_models)`, modelled as a duplicate-free
list). -/
def get_benchmark_models (available_models : List String)
    (test_models : List String) : List String × Option (List String) :=
  if test_models.isEmpty then
    (available_models, none)
  else
    let model_names := test_models.filter (fun model => model ∈ available_models)
    if model_names.length < test_models.length then
      (model_names,
        some ((test_models.filter (fun m => m ∉ available_models)).dedup))
    else
      (model_names, none)

/-- The inner prompt loop of `main` for one model: for each prompt, run the
benchmark; on success (`if response := run_benchmark(...)`) append the
response, and — when verbose — print it and call `inference_stats(response)`.
That call sits inside the loop with no `try/except`, so a
`ZeroDivisionError` raised there (zero-duration telemetry) unwinds past both
loops and kills the whole session, modelled as `Except.error`. -/
def run_prompts (backend : Backend) (model_name : String) (verbose : Bool) :
    List String → List OllamaResponse → Except StatsError (List OllamaResponse)
  | [], responses => Except.ok responses
  | prompt :: rest, responses =>
      match run_benchmark backend model_name prompt verbose with
      | none => run_prompts backend model_name verbose rest responses
      | some response =>
          if verbose then
            match inference_stats response with
            | Except.error e => Except.error e
            | Except.ok _ =>
                run_prompts backend model_name verbose rest (responses ++ [response])
          else
            run_prompts backend model_name verbose rest (responses ++ [response])

/-- The outer model loop of `main`: for each model, run all prompts and store
the collected responses under the model's name (the `benchmarks` dict,
modelled as an association list in insertion order).  An uncaught exception in
the inner loop propagates. -/
def run_models (backend : Backend) (prompts : List String) (verbose : Bool) :
    List String → List (String × List OllamaResponse) →
    Except StatsError (List (String × List OllamaResponse))
  | [], benchmarks => Except.ok benchmarks
  | model_name :: rest, benchmarks =>
      match run_prompts backend model_name verbose prompts [] with
      | Except.error e => Except.error e
      | Except.ok responses =>
          run_models backend prompts verbose rest (benchmarks ++ [(model_name, responses)])

/-- The benchmark loop of `main` (benchmark.py lines 280-292): the nested
model/prompt loops, including the verbose-mode per-run
`inference_stats(response)` call whose uncaught `ZeroDivisionError` aborts the
session. -/
def run_session (backend : Backend) (model_names : List String)
    (prompts : List String) (verbose : Bool) :
    Except StatsError (List (String × List OllamaResponse)) :=
  run_models backend prompts verbose model_names []

/-- A record whose prompt-evaluation duration is zero: the pathological
immediate-cache-hit shape of backend telemetry. -/
def zeroDurationResponse : OllamaResponse :=
  { model := "m1"
    message := { role := "assistant", content := "cached" }
    done := true
    total_duration := 5
    load_duration := 0
    prompt_eval_count := 10
    prompt_eval_duration := 0
    eval_count := 20
    eval_duration := 1000000000 }

/-- A well-formed record used to instantiate the throughput theorems. -/
def sampleResponse : OllamaResponse :=
  { model := "m1"
    message := { role := "assistant", content := "answer" }
    done := true
    total_duration := 3000000000
    load_duration := 0
    prompt_eval_count := 10
    prompt_eval_duration := 1000000000
    eval_count := 20
    eval_duration := 2000000000 }

/-- A record on which the combined rate differs from the mean of the two
individual rates: p=10, pd=2e9, e=100, ed=1e9. -/
def divergentResponse : OllamaResponse :=
  { model := "m1"
    message := { role := "assistant", content := "long answer" }
    done := true
    total_duration := 3000000000
    load_duration := 0
    prompt_eval_count := 10
    prompt_eval_duration := 2000000000
    eval_count := 100
    eval_duration := 1000000000 }

/-- A raw backend response that is not complete (`done = false`), as an
intermediate streamed chunk would be. -/
def incompleteRaw : RawChatResponse :=
  { model := "m1"
    message := { role := "assistant", content := "partial" }
    done := false
    total_duration := 1
    load_duration := 0
    prompt_eval_count := 1
    prompt_eval_duration := 1
    eval_count := 1
    eval_duration := 1 }

/-- A backend that answers every chat call with the incomplete response. -/
def incompleteBackend : Backend :=
  { chat_stream := fun _ _ => Except.ok [incompleteRaw]
    chat := fun _ _ => Except.ok incompleteRaw }

/-- A well-formed raw response for a given model name. -/
def goodRaw (model_name : String) : RawChatResponse :=
  { model := model_name
    message := { role := "assistant", content := "ok" }
    done := true
    total_duration := 2
    load_duration := 0
    prompt_eval_count := 3
    prompt_eval_duration := 1
    eval_count := 4
    eval_duration := 1 }

/-- A backend that fails (raises) on the prompt "bad" and answers every other
prompt successfully, in both batch and streaming mode, used to exhibit
per-run failure containment. -/
def flakyBackend : Backend :=
  { chat_stream := fun model_name messages =>
      if messages = [{ role := "user", content := "bad" }] then
        Except.error { cause := "network failure" }
      else
        Except.ok [goodRaw model_name]
    chat := fun model_name messages =>
      if messages = [{ role := "user", content := "bad" }] then
        Except.error { cause := "timeout" }
      else
        Except.ok (goodRaw model_name) }

/-- A raw streamed final chunk whose prompt-evaluation duration is zero: a
successful, complete response carrying pathological telemetry. -/
def zeroDurationRaw : RawChatResponse :=
  { model := "m1"
    message := { role := "assistant", content := "cached" }
    done := true
    total_duration := 5
    load_duration := 0
    prompt_eval_count := 10
    prompt_eval_duration := 0
    eval_count := 20
    eval_duration := 1000000000 }

/-- A streaming backend that raises on the prompt "bad", returns the
zero-duration chunk for model "m1" on other prompts, and a well-formed chunk
for every other model: a contained run failure followed by a successful run
whose verbose statistics printout divides by zero. -/
def crashBackend : Backend :=
  { chat_stream := fun model_name messages =>
      if messages = [{ role := "user", content := "bad" }] then
        Except.error { cause := "timeout" }
      else if model_name = "m1" then
        Except.ok [zeroDurationRaw]
      else
        Except.ok [goodRaw model_name]
    chat := fun model_name _ => Except.ok (goodRaw model_name) }

/-- A raw backend response carrying negative durations and a negative token
count, which the pydantic `int` fields accept unchecked. -/
def negativeRaw : RawChatResponse :=
  { model := "m1"
    message := { role := "assistant", content := "" }
    done := true
    total_duration := -7
    load_duration := -1
    prompt_eval_count := 3
    prompt_eval_duration := 4
    eval_count := -2
    eval_duration := 5 }

/-- First of two concrete per-run records used to instantiate the
aggregation theorems. -/
def runA : OllamaResponse :=
  { model := "m1"
    message := { role := "assistant", content := "a" }
    done := true
    total_duration := 100
    load_duration := 10
    prompt_eval_count := 3
    prompt_eval_duration := 30
    eval_count := 7
    eval_duration := 60 }

/-- Second of the two concrete per-run records; it deliberately carries a
different model name, a `done = false` flag and a non-assistant role. -/
def runB : OllamaResponse :=
  { model := "m2"
    message := { role := "user", content := "b" }
    done := false
    total_duration := 200
    load_duration := 20
    prompt_eval_count := 5
    prompt_eval_duration := 50
    eval_count := 11
    eval_duration := 130 }

lemma nanosec_to_sec_eq_zero_iff (n : Int) : nanosec_to_sec n = 0 ↔ n = 0 := by
  unfold nanosec_to_sec
  rw [div_eq_zero_iff]
  norm_num

/-- The inner prompt loop succeeds and collects exactly the successful runs
in order, provided that in verbose mode every successful run's statistics
printout succeeds (no zero divisor). -/
lemma run_prompts_ok (backend : Backend) (model_name : String) (verbose : Bool)
    (prompts : List String) (acc : List OllamaResponse)
    (hstats : verbose = true → ∀ p ∈ prompts, ∀ r,
      run_benchmark backend model_name p verbose = some r →
      ∃ s, inference_stats r = Except.ok s) :
    run_prompts backend model_name verbose prompts acc
      = Except.ok (acc ++ prompts.filterMap
          (fun p => run_benchmark backend model_name p verbose)) := by
  revert hstats
  induction prompts generalizing acc with
  | nil => intro _; simp [run_prompts]
  | cons p ps ih =>
      intro hstats
      have hstats_ps : verbose = true → ∀ q ∈ ps, ∀ r,
          run_benchmark backend model_name q verbose = some r →
          ∃ s, inference_stats r = Except.ok s :=
        fun hv q hq => hstats hv q (List.mem_cons_of_mem _ hq)
      cases hres : run_benchmark backend model_name p verbose with
      | none =>
          simp only [run_prompts, hres, List.filterMap_cons]
          exact ih acc hstats_ps
      | some r =>
          cases verbose with
          | false =>
              simp only [run_prompts, hres, Bool.false_eq_true, if_false,
                List.filterMap_cons]
              rw [ih (acc ++ [r]) hstats_ps]
              simp
          | true =>
              obtain ⟨s, hs⟩ := hstats rfl p (List.mem_cons_self p ps) r hres
              simp only [run_prompts, hres, if_pos rfl, hs, List.filterMap_cons]
              rw [ih (acc ++ [r]) hstats_ps]
              simp

/-- The outer model loop succeeds and records, for every model in order, the
list of its successful runs, under the same proviso on verbose statistics. -/
lemma run_models_ok (backend : Backend) (prompts : List String) (verbose : Bool)
    (model_names : List String) (acc : List (String × List OllamaResponse))
    (hstats : verbose = true → ∀ m ∈ model_names, ∀ p ∈ prompts, ∀ r,
      run_benchmark backend m p verbose = some r →
      ∃ s, inference_stats r = Except.ok s) :
    run_models backend prompts verbose model_names acc
      = Except.ok (acc ++ model_names.map
          (fun m => (m, prompts.filterMap
            (fun p => run_benchmark backend m p verbose)))) := by
  revert hstats
  induction model_names generalizing acc with
  | nil => intro _; simp [run_models]
  | cons m ms ih =>
      intro hstats
      simp only [run_models]
      rw [run_prompts_ok backend m verbose prompts []
        (fun hv p hp => hstats hv m (List.mem_cons_self m ms) p hp)]
      simp only [List.nil_append]
      rw [ih (acc ++ [(m, prompts.filterMap (fun p => run_benchmark backend m p verbose))])
        (fun hv m' hm' => hstats hv m' (List.mem_cons_of_mem _ hm'))]
      simp

/-- Evaluation of `inference_stats` when no divisor is zero: all three guards
fall through and the computed statistics are returned. -/
lemma inference_stats_ok (r : OllamaResponse)
    (hpd : r.prompt_eval_duration ≠ 0) (hed : r.eval_duration ≠ 0)
    (hsum : r.prompt_eval_duration + r.eval_duration ≠ 0) :
    inference_stats r = Except.ok
      { model := r.model
        prompt_ts := (r.prompt_eval_count : ℚ) / nanosec_to_sec r.prompt_eval_duration
        response_ts := (r.eval_count : ℚ) / nanosec_to_sec r.eval_duration
        total_ts := ((r.prompt_eval_count : ℚ) + (r.eval_count : ℚ)) /
          nanosec_to_sec (r.prompt_eval_duration + r.eval_duration)
        input_tokens := r.prompt_eval_count
        generated_tokens := r.eval_count
        load_time_s := nanosec_to_sec r.load_duration
        processing_time_s := nanosec_to_sec r.prompt_eval_duration
        generation_time_s := nanosec_to_sec r.eval_duration
        total_time_s := nanosec_to_sec r.total_duration } := by
  unfold inference_stats
  rw [if_neg (fun hc => hpd ((nanosec_to_sec_eq_zero_iff _).1 hc)),
    if_neg (fun hc => hed ((nanosec_to_sec_eq_zero_iff _).1 hc)),
    if_neg (fun hc => hsum ((nanosec_to_sec_eq_zero_iff _).1 hc))]

/-- Claim C1 counterexample: on a record with `promptEvalDuration = 0`,
`inference_stats` fails with the runtime `ZeroDivisionError` raised by the
unguarded division, not with an explicit `UndefinedRate` error — the code has
no such error. -/
theorem c1_counterexample :
    inference_stats zeroDurationResponse = Except.error StatsError.zeroDivisionError ∧
    inference_stats zeroDurationResponse ≠ Except.error StatsError.undefinedRate := by
  have h : inference_stats zeroDurationResponse = Except.error StatsError.zeroDivisionError := by
    unfold inference_stats
    rw [if_pos (show nanosec_to_sec zeroDurationResponse.prompt_eval_duration = 0 from
      (nanosec_to_sec_eq_zero_iff _).2 rfl)]
  refine ⟨h, ?_⟩
  rw [h]
  intro hc
  exact StatsError.noConfusion (Except.error.inj hc)

/-- Claim C1 (amended): on every record in which `promptEvalDuration` is zero
or `evalDuration` is zero, `inference_stats` fails with the unguarded
division's `ZeroDivisionError` (not an explicit `UndefinedRate`); it never
returns a statistics value there, so no rate — infinite or otherwise — is
produced or printed. -/
theorem c1_zero_divisor_raises (r : OllamaResponse)
    (h : r.prompt_eval_duration = 0 ∨ r.eval_duration = 0) :
    inference_stats r = Except.error StatsError.zeroDivisionError ∧
    ∀ s : InferenceStats, inference_stats r ≠ Except.ok s := by
  have main : inference_stats r = Except.error StatsError.zeroDivisionError := by
    unfold inference_stats
    rcases h with h | h
    · rw [if_pos ((nanosec_to_sec_eq_zero_iff _).2 h)]
    · by_cases hpd : r.prompt_eval_duration = 0
      · rw [if_pos ((nanosec_to_sec_eq_zero_iff _).2 hpd)]
      · rw [if_neg (fun hc => hpd ((nanosec_to_sec_eq_zero_iff _).1 hc)),
          if_pos ((nanosec_to_sec_eq_zero_iff _).2 h)]
  refine ⟨main, fun s hs => ?_⟩
  rw [main] at hs
  exact Except.noConfusion hs

/-- Witness for C1's amended theorem at a concrete zero-duration record. -/
theorem c1_zero_divisor_raises_witness :
    (zeroDurationResponse.prompt_eval_duration = 0 ∨ zeroDurationResponse.eval_duration = 0) ∧
    (inference_stats zeroDurationResponse = Except.error StatsError.zeroDivisionError ∧
      ∀ s : InferenceStats, inference_stats zeroDurationResponse ≠ Except.ok s) :=
  ⟨Or.inl rfl, c1_zero_divisor_raises zeroDurationResponse (Or.inl rfl)⟩

/-- Claim C2: for non-negative token counts and strictly positive durations,
`inference_stats` succeeds and yields `prompt_ts = p / (pd / 1e9)` and
`response_ts = e / (ed / 1e9)`, the nanosecond-to-second conversion being
division by 1e9. -/
theorem c2_inference_stats_rates (r : OllamaResponse)
    (hp : 0 ≤ r.prompt_eval_count) (he : 0 ≤ r.eval_count)
    (hpd : 0 < r.prompt_eval_duration) (hed : 0 < r.eval_duration) :
    (∀ n : Int, nanosec_to_sec n = (n : ℚ) / 1000000000) ∧
    ∃ s, inference_stats r = Except.ok s ∧
      s.prompt_ts = (r.prompt_eval_count : ℚ) / ((r.prompt_eval_duration : ℚ) / 1000000000) ∧
      s.response_ts = (r.eval_count : ℚ) / ((r.eval_duration : ℚ) / 1000000000) := by
  refine ⟨fun n => rfl, ?_⟩
  rw [inference_stats_ok r (by omega) (by omega) (by omega)]
  exact ⟨_, rfl, rfl, rfl⟩

/-- Witness for C2 at a concrete record (p=10, pd=1e9, e=20, ed=2e9). -/
theorem c2_inference_stats_rates_witness :
    ((0 ≤ sampleResponse.prompt_eval_count ∧ 0 ≤ sampleResponse.eval_count) ∧
      0 < sampleResponse.prompt_eval_duration ∧ 0 < sampleResponse.eval_duration) ∧
    ((∀ n : Int, nanosec_to_sec n = (n : ℚ) / 1000000000) ∧
      ∃ s, inference_stats sampleResponse = Except.ok s ∧
        s.prompt_ts = (sampleResponse.prompt_eval_count : ℚ) /
          ((sampleResponse.prompt_eval_duration : ℚ) / 1000000000) ∧
        s.response_ts = (sampleResponse.eval_count : ℚ) /
          ((sampleResponse.eval_duration : ℚ) / 1000000000)) :=
  ⟨⟨⟨by decide, by decide⟩, by decide, by decide⟩,
    c2_inference_stats_rates sampleResponse (by decide) (by decide) (by decide) (by decide)⟩

/-- Claim C3: with both durations positive the combined rate is total tokens
over the summed duration, `(p + e) / ((pd + ed) / 1e9)`; and on the concrete
record p=10, pd=2e9, e=100, ed=1e9 this differs from the arithmetic mean of
the two individual rates. -/
theorem c3_combined_rate (r : OllamaResponse)
    (hpd : 0 < r.prompt_eval_duration) (hed : 0 < r.eval_duration) :
    (∃ s, inference_stats r = Except.ok s ∧
      s.total_ts = ((r.prompt_eval_count : ℚ) + (r.eval_count : ℚ)) /
        (((r.prompt_eval_duration : ℚ) + (r.eval_duration : ℚ)) / 1000000000)) ∧
    (∃ s, inference_stats divergentResponse = Except.ok s ∧
      s.prompt_ts = 5 ∧ s.response_ts = 100 ∧ s.total_ts = 110 / 3 ∧
      s.total_ts ≠ (s.prompt_ts + s.response_ts) / 2) := by
  constructor
  · rw [inference_stats_ok r (by omega) (by omega) (by omega)]
    refine ⟨_, rfl, ?_⟩
    show ((r.prompt_eval_count : ℚ) + (r.eval_count : ℚ)) /
        nanosec_to_sec (r.prompt_eval_duration + r.eval_duration) = _
    unfold nanosec_to_sec
    push_cast
    ring
  · rw [inference_stats_ok divergentResponse (by decide) (by decide) (by decide)]
    refine ⟨_, rfl, ?_, ?_, ?_, ?_⟩ <;>
      norm_num [divergentResponse, nanosec_to_sec]

/-- Witness for C3 at the divergent record itself. -/
theorem c3_combined_rate_witness :
    (0 < divergentResponse.prompt_eval_duration ∧ 0 < divergentResponse.eval_duration) ∧
    ((∃ s, inference_stats divergentResponse = Except.ok s ∧
      s.total_ts = ((divergentResponse.prompt_eval_count : ℚ) + (divergentResponse.eval_count : ℚ)) /
        (((divergentResponse.prompt_eval_duration : ℚ) + (divergentResponse.eval_duration : ℚ)) / 1000000000)) ∧
    (∃ s, inference_stats divergentResponse = Except.ok s ∧
      s.prompt_ts = 5 ∧ s.response_ts = 100 ∧ s.total_ts = 110 / 3 ∧
      s.total_ts ≠ (s.prompt_ts + s.response_ts) / 2)) :=
  ⟨⟨by decide, by decide⟩, c3_combined_rate divergentResponse (by decide) (by decide)⟩

/-- Claim C4 counterexample: `from_chat_response` does not reject a raw
response with `done = false` — it returns a record with `done = false`, and
`run_benchmark` hands that record to the benchmark loop as a successful
result. -/
theorem c4_counterexample :
    (OllamaResponse.from_chat_response incompleteRaw).done = false ∧
    run_benchmark incompleteBackend "m1" "p" false
      = some (OllamaResponse.from_chat_response incompleteRaw) ∧
    run_benchmark incompleteBackend "m1" "p" true
      = some (OllamaResponse.from_chat_response incompleteRaw) :=
  ⟨rfl, rfl, rfl⟩

/-- Claim C4 (amended): `from_chat_response` performs no completeness check —
whenever the backend call returns a raw response, `run_benchmark` returns the
normalized record as a successful result with the `done` flag copied verbatim,
whether or not it is `true`. -/
theorem c4_no_done_check (backend : Backend) (model_name prompt : String)
    (response : RawChatResponse)
    (h : backend.chat model_name [{ role := "user", content := prompt }]
      = Except.ok response) :
    run_benchmark backend model_name prompt false
      = some (OllamaResponse.from_chat_response response) ∧
    (OllamaResponse.from_chat_response response).done = response.done := by
  refine ⟨?_, rfl⟩
  unfold run_benchmark
  simp only [Bool.false_eq_true, if_false, h]

/-- Witness for C4's amended theorem at the incomplete backend. -/
theorem c4_no_done_check_witness :
    (incompleteBackend.chat "m1" [{ role := "user", content := "p" }]
      = Except.ok incompleteRaw) ∧
    (run_benchmark incompleteBackend "m1" "p" false
      = some (OllamaResponse.from_chat_response incompleteRaw) ∧
    (OllamaResponse.from_chat_response incompleteRaw).done = incompleteRaw.done) :=
  ⟨rfl, c4_no_done_check incompleteBackend "m1" "p" incompleteRaw rfl⟩

/-- Claim C5: with an empty request list, `get_benchmark_models` returns the
backend's full model list (in backend order) and no warning; otherwise it
returns the requested names that are available in requested order (a sublist
of the request), and every requested-but-unavailable name appears in the
emitted warning; no error is raised in either case (the function is total). -/
theorem c5_model_resolution (available_models test_models : List String) :
    (test_models = [] →
      get_benchmark_models available_models test_models = (available_models, none)) ∧
    ((get_benchmark_models available_models test_models).1.Sublist test_models ∨
      test_models = []) ∧
    (test_models ≠ [] →
      (∀ m, m ∈ (get_benchmark_models available_models test_models).1 ↔
        (m ∈ test_models ∧ m ∈ available_models)) ∧
      (∀ m, m ∈ test_models → m ∉ available_models →
        ∃ w, (get_benchmark_models available_models test_models).2 = some w ∧ m ∈ w)) := by
  by_cases hempty : test_models = []
  · subst hempty
    exact ⟨fun _ => rfl, Or.inr rfl, fun hc => absurd rfl hc⟩
  · have hne : test_models.isEmpty = false := by
      cases test_models with
      | nil => exact absurd rfl hempty
      | cons a l => rfl
    have hfst : (get_benchmark_models available_models test_models).1
        = test_models.filter (fun model => model ∈ available_models) := by
      unfold get_benchmark_models
      rw [hne]
      simp only [Bool.false_eq_true, if_false]
      by_cases hlen : (test_models.filter (fun model => model ∈ available_models)).length
          < test_models.length
      · rw [if_pos hlen]
      · rw [if_neg hlen]
    refine ⟨fun hc => absurd hc hempty, Or.inl ?_, fun _ => ⟨?_, ?_⟩⟩
    · rw [hfst]
      exact List.filter_sublist test_models
    · intro m
      rw [hfst, List.mem_filter]
      simp
    · intro m hmem hnotavail
      have hmiss : m ∈ test_models.filter (fun x => decide (x ∉ available_models)) :=
        List.mem_filter.2 ⟨hmem, by simpa using hnotavail⟩
      have hlen : (test_models.filter (fun model => model ∈ available_models)).length
          < test_models.length := by
        rcases Nat.lt_or_ge (test_models.filter (fun model => model ∈ available_models)).length
            test_models.length with hlt | hge
        · exact hlt
        · exfalso
          have hsub := List.filter_sublist (l := test_models)
            (p := fun model => model ∈ available_models)
          have heq : test_models.filter (fun model => model ∈ available_models)
              = test_models :=
            hsub.eq_of_length (Nat.le_antisymm hsub.length_le hge)
          have : m ∈ test_models.filter (fun model => model ∈ available_models) := by
            rw [heq]; exact hmem
          exact hnotavail (by simpa using (List.mem_filter.1 this).2)
      refine ⟨(test_models.filter (fun m => m ∉ available_models)).dedup, ?_, ?_⟩
      · unfold get_benchmark_models
        rw [hne]
        simp only [Bool.false_eq_true, if_false]
        rw [if_pos hlen]
      · rw [List.mem_dedup]
        exact hmiss

/-- Witness for C5 on the concrete backend list ["a","b"]: the empty request
resolves to the full list, and the request ["a","missing","b"] produces a
warning containing "missing". -/
theorem c5_model_resolution_witness :
    (get_benchmark_models ["a", "b"] [] = (["a", "b"], none)) ∧
    (∃ w, (get_benchmark_models ["a", "b"] ["a", "missing", "b"]).2 = some w ∧
      "missing" ∈ w) :=
  ⟨(c5_model_resolution ["a", "b"] []).1 rfl,
    ((c5_model_resolution ["a", "b"] ["a", "missing", "b"]).2.2 (by decide)).2
      "missing" (by decide) (by decide)⟩

/-- Claim C6: on a non-empty list of runs, `average_stats` produces a record
whose duration and count fields are the arithmetic sums across the runs (not
means), whose message content is the synthetic note naming the number of
runs, and whose `created_at` is the aggregation time. -/
theorem c6_average_sums (now : Int) (responses : List OllamaResponse)
    (h : responses ≠ []) :
    ∃ agg, average_stats now responses = some agg ∧
      agg.total_duration = (responses.map (fun r => r.total_duration)).sum ∧
      agg.load_duration = (responses.map (fun r => r.load_duration)).sum ∧
      agg.prompt_eval_duration = (responses.map (fun r => r.prompt_eval_duration)).sum ∧
      agg.eval_duration = (responses.map (fun r => r.eval_duration)).sum ∧
      agg.prompt_eval_count = (responses.map (fun r => r.prompt_eval_count)).sum ∧
      agg.eval_count = (responses.map (fun r => r.eval_count)).sum ∧
      agg.message.content = "Average stats across " ++ toString responses.length ++ " runs" ∧
      agg.created_at = some now := by
  cases responses with
  | nil => exact absurd rfl h
  | cons first rest =>
      exact ⟨_, rfl, rfl, rfl, rfl, rfl, rfl, rfl, rfl, rfl⟩

/-- Witness for C6 on two concrete runs: the aggregate fields are the sums
(e.g. promptEvalCount 3 + 5 = 8), the note names 2 runs, `created_at` is the
supplied aggregation instant. -/
theorem c6_average_sums_witness :
    ([runA, runB] ≠ ([] : List OllamaResponse)) ∧
    (∃ agg, average_stats 1700000000 [runA, runB] = some agg ∧
      agg.total_duration = ([runA, runB].map (fun r => r.total_duration)).sum ∧
      agg.load_duration = ([runA, runB].map (fun r => r.load_duration)).sum ∧
      agg.prompt_eval_duration = ([runA, runB].map (fun r => r.prompt_eval_duration)).sum ∧
      agg.eval_duration = ([runA, runB].map (fun r => r.eval_duration)).sum ∧
      agg.prompt_eval_count = ([runA, runB].map (fun r => r.prompt_eval_count)).sum ∧
      agg.eval_count = ([runA, runB].map (fun r => r.eval_count)).sum ∧
      agg.message.content = "Average stats across " ++ toString [runA, runB].length ++ " runs" ∧
      agg.created_at = some 1700000000) :=
  ⟨by simp, c6_average_sums 1700000000 [runA, runB] (by simp)⟩

/-- Claim C7: averaging a model with zero recorded runs returns `None`: no
division, no fabricated record, whatever the aggregation instant. -/
theorem c7_average_empty (now : Int) : average_stats now [] = none := rfl

/-- Claim C8 counterexample: in verbose mode, the contained failure of
("m1", "bad") does not guarantee the rest of the session runs.  The next run
("m1", "zero") succeeds but carries zero-duration telemetry; main's per-run
`inference_stats(response)` call then raises an uncaught `ZeroDivisionError`
that aborts the whole session, so the later model "m2" — whose run would
succeed — is never processed and nothing is recorded. -/
theorem c8_counterexample :
    run_benchmark crashBackend "m1" "bad" true = none ∧
    run_benchmark crashBackend "m2" "zero" true
      = some (OllamaResponse.from_chat_response (goodRaw "m2")) ∧
    run_session crashBackend ["m1", "m2"] ["bad", "zero"] true
      = Except.error StatsError.zeroDivisionError ∧
    ∀ benchmarks, run_session crashBackend ["m1", "m2"] ["bad", "zero"] true
      ≠ Except.ok benchmarks := by
  have hbad : run_benchmark crashBackend "m1" "bad" true = none := rfl
  have hzero : run_benchmark crashBackend "m1" "zero" true
      = some (OllamaResponse.from_chat_response zeroDurationRaw) := rfl
  have hstats : inference_stats (OllamaResponse.from_chat_response zeroDurationRaw)
      = Except.error StatsError.zeroDivisionError := by
    unfold inference_stats
    rw [if_pos (show nanosec_to_sec
        (OllamaResponse.from_chat_response zeroDurationRaw).prompt_eval_duration = 0 from
      (nanosec_to_sec_eq_zero_iff _).2 rfl)]
  have hp2 : run_prompts crashBackend "m1" true ["zero"] []
      = Except.error StatsError.zeroDivisionError := by
    simp [run_prompts, hzero, hstats]
  have hp1 : run_prompts crashBackend "m1" true ["bad", "zero"] []
      = Except.error StatsError.zeroDivisionError := by
    simp only [run_prompts, hbad]
    exact hp2
  have hsession : run_session crashBackend ["m1", "m2"] ["bad", "zero"] true
      = Except.error StatsError.zeroDivisionError := by
    simp only [run_session, run_models, hp1]
  refine ⟨hbad, rfl, hsession, fun benchmarks hc => ?_⟩
  rw [hsession] at hc
  exact Except.noConfusion hc

/-- Claim C8 (amended): a backend or normalization failure of one (model,
prompt) run is contained — `run_benchmark` returns `none` rather than
propagating — and the session processes and records every other successful
run, provided the verbose per-run statistics printout does not itself raise:
with verbose off, or when every successful run's record divides cleanly in
`inference_stats`, the session completes and every successful run appears in
its model's entry. -/
theorem c8_failure_containment (backend : Backend) (model_names prompts : List String)
    (verbose : Bool) (m p : String) (r : OllamaResponse)
    (hm : m ∈ model_names) (hp : p ∈ prompts)
    (hr : run_benchmark backend m p verbose = some r)
    (hstats : verbose = true → ∀ m' ∈ model_names, ∀ p' ∈ prompts, ∀ r',
      run_benchmark backend m' p' verbose = some r' →
      ∃ s, inference_stats r' = Except.ok s) :
    ∃ benchmarks, run_session backend model_names prompts verbose = Except.ok benchmarks ∧
      ∃ rs, (m, rs) ∈ benchmarks ∧ r ∈ rs := by
  refine ⟨model_names.map
      (fun m' => (m', prompts.filterMap (fun p' => run_benchmark backend m' p' verbose))),
    ?_, ?_⟩
  · have h := run_models_ok backend prompts verbose model_names [] hstats
    simpa [run_session] using h
  · exact ⟨prompts.filterMap (fun p' => run_benchmark backend m p' verbose),
      List.mem_map_of_mem _ hm, List.mem_filterMap.2 ⟨p, hp, hr⟩⟩

/-- Witness for C8's amended theorem, exercising both modes of the flaky
backend: with verbose off and with verbose on (where every successful run's
statistics divide cleanly), the run ("m1", "bad") fails contained while the
later run ("m2", "good") is processed and recorded. -/
theorem c8_failure_containment_witness :
    (run_benchmark flakyBackend "m1" "bad" false = none ∧
      ∃ benchmarks,
        run_session flakyBackend ["m1", "m2"] ["bad", "good"] false
          = Except.ok benchmarks ∧
        ∃ rs, ("m2", rs) ∈ benchmarks ∧
          OllamaResponse.from_chat_response (goodRaw "m2") ∈ rs) ∧
    (run_benchmark flakyBackend "m1" "bad" true = none ∧
      ∃ benchmarks,
        run_session flakyBackend ["m1", "m2"] ["bad", "good"] true
          = Except.ok benchmarks ∧
        ∃ rs, ("m2", rs) ∈ benchmarks ∧
          OllamaResponse.from_chat_response (goodRaw "m2") ∈ rs) :=
  ⟨⟨rfl,
    c8_failure_containment flakyBackend ["m1", "m2"] ["bad", "good"] false "m2" "good"
      (OllamaResponse.from_chat_response (goodRaw "m2"))
      (by simp) (by simp) rfl
      (fun hv => absurd hv (by decide))⟩,
   ⟨rfl,
    c8_failure_containment flakyBackend ["m1", "m2"] ["bad", "good"] true "m2" "good"
      (OllamaResponse.from_chat_response (goodRaw "m2"))
      (by simp) (by simp) rfl
      (by
        intro _ m' hm' p' hp' r' hr'
        have hm2 : m' = "m1" ∨ m' = "m2" := by simpa using hm'
        have hp2 : p' = "bad" ∨ p' = "good" := by simpa using hp'
        rcases hp2 with rfl | rfl
        · rcases hm2 with rfl | rfl <;> exact Option.noConfusion hr'
        · rcases hm2 with rfl | rfl
          · have h2 : run_benchmark flakyBackend "m1" "good" true
                = some (OllamaResponse.from_chat_response (goodRaw "m1")) := rfl
            rw [h2] at hr'
            obtain rfl := Option.some.inj hr'
            exact ⟨_, inference_stats_ok _ (by decide) (by decide) (by decide)⟩
          · have h2 : run_benchmark flakyBackend "m2" "good" true
                = some (OllamaResponse.from_chat_response (goodRaw "m2")) := rfl
            rw [h2] at hr'
            obtain rfl := Option.some.inj hr'
            exact ⟨_, inference_stats_ok _ (by decide) (by decide) (by decide)⟩)⟩⟩

/-- Claim C9 counterexample: `OllamaResponse` construction does not reject
negative durations or counts — normalizing a raw response with
`total_duration = -7` and `eval_count = -2` succeeds and keeps the negative
values. -/
theorem c9_counterexample :
    (OllamaResponse.from_chat_response negativeRaw).total_duration = -7 ∧
    (OllamaResponse.from_chat_response negativeRaw).total_duration < 0 ∧
    (OllamaResponse.from_chat_response negativeRaw).eval_count < 0 :=
  ⟨rfl, by decide, by decide⟩

/-- Claim C9 (amended): the record's duration and count fields are plain
(signed, unconstrained) integers; `from_chat_response` copies them verbatim
from the raw response with no non-negativity validation, so negative values
are accepted rather than rejected. -/
theorem c9_no_nonnegativity_check (response : RawChatResponse) :
    (OllamaResponse.from_chat_response response).total_duration = response.total_duration ∧
    (OllamaResponse.from_chat_response response).load_duration = response.load_duration ∧
    (OllamaResponse.from_chat_response response).prompt_eval_duration
      = response.prompt_eval_duration ∧
    (OllamaResponse.from_chat_response response).eval_duration = response.eval_duration ∧
    (OllamaResponse.from_chat_response response).prompt_eval_count
      = response.prompt_eval_count ∧
    (OllamaResponse.from_chat_response response).eval_count = response.eval_count :=
  ⟨rfl, rfl, rfl, rfl, rfl, rfl⟩

/-- Claim C10: on any non-empty input the aggregate record takes its model
name from the first record, and has `done = true` and message role "system",
whatever the later records' models and the input records' flags and roles. -/
theorem c10_average_header (now : Int) (first : OllamaResponse)
    (rest : List OllamaResponse) :
    ∃ agg, average_stats now (first :: rest) = some agg ∧
      agg.model = first.model ∧ agg.done = true ∧ agg.message.role = "system" :=
  ⟨_, rfl, rfl, rfl, rfl⟩

end Benchmark
